import Mathlib

/-!
Verification of the Mutawazi financial proposal engine (`src/api/index.py`).

The engine's arithmetic is embedded shallowly over `ℚ` (Python floats are
modelled as exact rationals; the literal `0.15` denotes `3/20` exactly).
Python's `round(x, 2)` (round half to even) is modelled by `round2` below.
Fallible endpoints are modelled as `Except`-valued functions; the FastAPI
transport layer, which re-wraps every raised `HTTPException` of the engine
into a response, is out of scope — errors are identified by which exception
the engine raises and what data its message carries.
-/

/-- Round half to even at the integer level, as Python's builtin `round`
does (banker's rounding), on exact rationals. -/
def roundHalfEven (q : ℚ) : ℤ :=
  let n := ⌊q⌋
  let f := q - n
  if f < 1/2 then n
  else if 1/2 < f then n + 1
  else if 2 ∣ n then n else n + 1

/-- Python's `round(q, 2)`: round half to even at the second decimal. -/
def round2 (q : ℚ) : ℚ := (roundHalfEven (100 * q) : ℚ) / 100

/-- One entry of `SERVICES_CATALOG` (`src/api/index.py` lines 136-382):
name, description, unit label, duration in months, catalog price. -/
structure ServiceRecord where
  name : String
  description : String
  unit : String
  duration : ℕ
  price : ℚ
deriving DecidableEq, Repr

/-- The static services catalog of `src/api/index.py` lines 136-382, as the
read-only lookup `service_id ↦ record` used via `SERVICES_CATALOG.get`. -/
def SERVICES_CATALOG : String → Option ServiceRecord
  | "1.0" => some ⟨"AI Strategy & Governance", "", "Service", 24, 80000⟩
  | "1.1" => some ⟨"AI Governance Framework Development", "This includes developing AI governance frameworks aligned with international standards (e.g. ISO/IEC 42001:2023) and the client's vision and objectives", "Service", 12, 40000⟩
  | "1.2" => some ⟨"AI Trustworthiness & Risk Assessment", "Incorporates AI risk management models to ensure ethical, bias-mitigated, and secure AI deployment", "Service", 2, 30000⟩
  | "1.3" => some ⟨"Ethical AI Policy & Compliance Strategy", "Establishes AI ethics guidelines and ensures alignment with regulatory requirements (e.g. Saudi NDMO policies)", "Service", 3, 15000⟩
  | "1.4" => some ⟨"Set up AI Office in compliance with SDAIA", "Assess maturity of AI compliance and set up operating model for AI offices", "Service", 2, 10000⟩
  | "2.0" => some ⟨"AI Project & Portfolio Management", "", "Service", 18, 950000⟩
  | "2.1" => some ⟨"AI-Driven PMO Setup & Consultancy", "Establishing or upgrading a Project Management Office with AI capabilities for automation and real-time project tracking. (Includes integrating AI tools into project workflows for status reporting and schedule optimization.)", "Service", 12, 300000⟩
  | "2.2" => some ⟨"AI Project Tracker & Risk Prediction Tool", "Deployment of an 'AI Project Manager' solution that uses predictive analytics to forecast project risks and delays. (For example, AI-based dashboards that predict schedule slippages and resource needs, valued in mid-six figures based on past tech deployments.)", "Service", 4, 350000⟩
  | "2.3" => some ⟨"AI Portfolio Roadmap Development", "Creating an AI-enhanced portfolio roadmap with project interdependencies and strategic alignment. (Often delivered as a consulting output rather than a separately priced item.)", "Service", 10, 400000⟩
  | "3.0" => some ⟨"AI Risk Management & Compliance", "", "Service", 6, 500000⟩
  | "3.1" => some ⟨"AI Maturity & Impact Assessment", "Evaluating the organization's AI maturity level and readiness, and assessing potential impact and risks of AI use cases. (Includes workshops and an AI maturity model assessment.)", "Service", 2, 200000⟩
  | "3.2" => some ⟨"AI Risk & Compliance Framework", "Developing tools and processes for AI risk identification, bias mitigation, and compliance monitoring (e.g. TRM - Transformation Risk Manager)", "Service", 3, 300000⟩
  | "3.3" => some ⟨"Regulatory Alignment & Audit Preparation", "Ensuring AI initiatives comply with local and international regulations, and preparing documentation for audits or certifications (such as NDMO guidelines or OECD AI principles)", "Service", 3, 250000⟩
  | "4.0" => some ⟨"AI Enablement & Implementation", "", "Service", 36, 3000000⟩
  | "4.1" => some ⟨"AI Solution Design & MVP Development", "End-to-end development of a proof-of-concept or MVP (Minimum Viable Product) for an AI solution tailored to the client's use case", "Solution", 2, 725000⟩
  | "4.2" => some ⟨"Advanced Analytics & BI Integration", "Implementing AI-powered analytics, business intelligence dashboards, and real-time data processing for decision support", "Solution", 9, 925000⟩
  | "4.3" => some ⟨"Custom AI Use Case Development", "Developing industry-specific AI use cases or models (e.g. predictive maintenance, customer service chatbots) and integrating them into business processes", "Document", 10, 600000⟩
  | "4.4" => some ⟨"User Interface & Experience Implementation", "Building intuitive, multi-language user interfaces for AI applications, ensuring accessibility (e.g. compliance with WCAG standards).", "Software", 8, 1000000⟩
  | "4.5" => some ⟨"Integration & Deployment", "Integration of AI solutions into the client's environment (CRM, ERP, etc.), including testing and deployment on cloud or on-prem infrastructure", "Software & Hardware", 12, 1250000⟩
  | "4.6" => some ⟨"Chatbot Development & Automation", "Mutawazi's ChatBot capabilities are incorporated here as a key AI use-case. Developing a modular conversational AI assistant (e.g. for customer service or internal support) falls under AI Enablement", "Subscription", 1, 10000⟩
  | "5.0" => some ⟨"Training & Capacity Building", "", "Service", 36, 400000⟩
  | "5.1" => some ⟨"AI Competency Development Programs", "A series of workshops, 'AI bootcamps,' and hands-on training sessions to build the client team's AI skills", "Service", 36, 250000⟩
  | "5.2" => some ⟨"Executive Leadership Workshops", "High-level seminars for leadership on AI strategy, transformation, and change management", "Employee", 6, 25000⟩
  | "5.3" => some ⟨"Certification Training (ISO/IEC 42001)", "Focused training to prepare teams for AI management system certification", "Employee", 1, 10000⟩
  | "5.4" => some ⟨"Certification Training (⁠ISO 14001)", "Certified training", "Employee", 1, 10000⟩
  | "5.5" => some ⟨"Certification Training (⁠ISO 45001)", "Certified training", "Employee", 1, 10000⟩
  | "5.6" => some ⟨"Certification Training (⁠ISO 9001)", "Certified training", "Employee", 1, 10000⟩
  | "5.7" => some ⟨"Certification Training (⁠ISO 50001)", "Certified training", "Employee", 1, 10000⟩
  | "6.0" => some ⟨"Data Management & AI Infrastructure", "", "Service", 36, 3500000⟩
  | "6.1" => some ⟨"AI/Data Architecture Design", "Designing the overall system and data architecture for AI solutions, including databases, data pipelines, and cloud infrastructure", "Service", 6, 700000⟩
  | "6.2" => some ⟨"Data Collection & Integration", "Setting up data integration pipelines to gather and unify data from various sources (internal systems or external APIs) for AI use", "Service", 12, 675000⟩
  | "6.3" => some ⟨"Secure Data Storage & Cybersecurity", "Implementing secure data lakes/warehouses and applying cybersecurity best practices (encryption, access controls) to protect sensitive data.", "Software & Hardware", 6, 800000⟩
  | "6.4" => some ⟨"AI Infrastructure & Cloud Deployment", "Provisioning cloud or on-premise environments for AI model training and deployment, ensuring scalability and compliance with data residency requirements", "Software & Hardware", 18, 700000⟩
  | "6.5" => some ⟨"Interoperability & API Integration", "Ensuring the AI systems can interconnect with other enterprise systems and external services", "Service", 8, 700000⟩
  | "6.6" => some ⟨"Maintenance & Support Services", "Ongoing technical support, system monitoring, and model maintenance post-implementation", "Service", 1, 650000⟩
  | _ => none

/-- `DEFAULT_OVERHEAD_COSTS` (`src/api/index.py` lines 384-391): the values
of the monthly overhead rate dictionary (salaries, utilities, transportation,
visas, office rent, insurance). The engine only ever takes their sum. -/
def DEFAULT_OVERHEAD_COSTS : List ℚ := [50000, 15000, 10000, 8000, 20000, 5000]

/-- `calculate_overhead` (`src/api/index.py` lines 410-415): 15% of base
costs plus the summed monthly overhead rates times the duration in months. -/
def calculate_overhead (base_costs : ℚ) (overhead_costs : List ℚ)
    (duration_months : ℕ) : ℚ :=
  let monthly_overhead := overhead_costs.sum
  let total_overhead := monthly_overhead * duration_months
  -- the source's literal `0.15` is exactly 15/100 in ℚ
  base_costs * (15 / 100) + total_overhead

/-- C1: for every `baseCosts ≥ 0`, rate table with non-negative values and
`durationMonths ≥ 1`, the overhead calculator returns exactly
`baseCosts * 0.15 + (sum of rates) * durationMonths`. (The embedded
`calculate_overhead` is a total pure function: no error conditions, no side
effects.) -/
theorem calculate_overhead_spec (b : ℚ) (rates : List ℚ) (d : ℕ)
    (hb : 0 ≤ b) (hr : ∀ r ∈ rates, 0 ≤ r) (hd : 1 ≤ d) :
    calculate_overhead b rates d = b * (15/100) + rates.sum * d := by
  simp [calculate_overhead]

/-- Witness for C1 at `b = 1250`, `rates = DEFAULT_OVERHEAD_COSTS`, `d = 2`. -/
theorem calculate_overhead_spec_witness :
    (0:ℚ) ≤ 1250 ∧ (∀ r ∈ DEFAULT_OVERHEAD_COSTS, (0:ℚ) ≤ r) ∧ 1 ≤ 2 ∧
      calculate_overhead 1250 DEFAULT_OVERHEAD_COSTS 2
        = 1250 * (15/100) + DEFAULT_OVERHEAD_COSTS.sum * 2 :=
  ⟨by norm_num, by decide, by norm_num,
    calculate_overhead_spec 1250 DEFAULT_OVERHEAD_COSTS 2 (by norm_num)
      (by decide) (by norm_num)⟩

/-- One item of `CashFlowRequest.deliverables` (`src/api/index.py` lines
66-76): the Pydantic `DeliverableData` model. Field bounds enforced by
Pydantic (`amount > 0`, `salaries/tools/others ≥ 0`) appear as hypotheses of
the theorems that need them. -/
structure DeliverableData where
  name : String
  due_date : String
  service_id : Option String
  amount : Option ℚ
  salaries : ℚ
  tools : ℚ
  others : ℚ
deriving DecidableEq, Repr

/-- The two `HTTPException`s raised inside the deliverable loop
(`src/api/index.py` lines 683-686 and 695-698), identified by their
message: unknown service id, or missing amount with no service id. -/
inductive CashFlowError where
  | unknownService (service_id : String)
  | missingAmount
deriving DecidableEq, Repr

/-- The embedded catalog info attached to a result when a service id was
used (`src/api/index.py` lines 729-735). -/
structure ServiceInfo where
  name : String
  catalog_price : ℚ
  duration : ℕ
  unit : String
deriving DecidableEq, Repr

/-- One element of the `deliverables` output list (`src/api/index.py`
lines 713-726). -/
structure DeliverableResult where
  deliverable_name : String
  due_date : String
  service_id : Option String
  cash_in : ℚ
  salaries : ℚ
  tools : ℚ
  others : ℚ
  overhead : ℚ
  cash_out : ℚ
  net_flow : ℚ
  cumulative_net_flow : ℚ
  is_profitable : Bool
  service_info : Option ServiceInfo
deriving DecidableEq, Repr

/-- The `summary` object of the cash-flow response (`src/api/index.py`
lines 739-753). -/
structure CashFlowSummary where
  total_revenue : ℚ
  total_costs : ℚ
  total_profit : ℚ
  profit_margin : ℚ
  is_profitable : Bool
deriving DecidableEq, Repr

/-- Amount resolution (`src/api/index.py` lines 678-699): with a service id,
the catalog must resolve it (else `unknownService`) and an absent amount
falls back to the catalog price; without a service id the amount is
mandatory (else `missingAmount`). -/
def resolveAmount (catalog : String → Option ServiceRecord)
    (d : DeliverableData) : Except CashFlowError (Option ServiceRecord × ℚ) :=
  match d.service_id with
  | some sid =>
    match catalog sid with
    | none => .error (.unknownService sid)
    | some svc =>
      match d.amount with
      | none => .ok (some svc, svc.price)
      | some a => .ok (some svc, a)
  | none =>
    match d.amount with
    | none => .error .missingAmount
    | some a => .ok (none, a)

/-- One iteration of the deliverable loop (`src/api/index.py` lines
677-737): resolve the amount, compute base costs, duration (catalog
duration, defaulting to 1 without a service), overhead, cash out, net flow,
and the updated running cumulative net flow, which is returned alongside
the emitted result. -/
def processDeliverable (catalog : String → Option ServiceRecord)
    (rates : List ℚ) (cum : ℚ) (d : DeliverableData) :
    Except CashFlowError (DeliverableResult × ℚ) :=
  match resolveAmount catalog d with
  | .error e => .error e
  | .ok (serviceInfo, amount) =>
    let base_costs := d.salaries + d.tools + d.others
    let duration := match serviceInfo with
      | some svc => svc.duration
      | none => 1
    let overhead := calculate_overhead base_costs rates duration
    let cash_out := base_costs + overhead
    let net_flow := amount - cash_out
    let cum' := cum + net_flow
    .ok ({ deliverable_name := d.name
           due_date := d.due_date
           service_id := d.service_id
           cash_in := amount
           salaries := d.salaries
           tools := d.tools
           others := d.others
           overhead := overhead
           cash_out := cash_out
           net_flow := net_flow
           cumulative_net_flow := cum'
           is_profitable := decide (net_flow > 0)
           service_info := serviceInfo.map
             fun svc => ⟨svc.name, svc.price, svc.duration, svc.unit⟩ }, cum')

/-- The `for i, deliv_data in enumerate(request.deliverables)` loop of
`src/api/index.py` lines 677-737, threading the running cumulative net flow
through the sequence in input order; the first error aborts the whole list
(all-or-nothing). -/
def processDeliverables (catalog : String → Option ServiceRecord)
    (rates : List ℚ) :
    ℚ → List DeliverableData → Except CashFlowError (List DeliverableResult)
  | _, [] => .ok []
  | cum, d :: ds =>
    match processDeliverable catalog rates cum d with
    | .error e => .error e
    | .ok (r, cum') =>
      match processDeliverables catalog rates cum' ds with
      | .error e => .error e
      | .ok rs => .ok (r :: rs)

/-- `calculate_deliverable_cashflow` (`src/api/index.py` lines 670-757):
run the loop with the cumulative net flow starting at 0, then build the
summary; the profit margin divides only when `total_revenue > 0` (else 0)
and is rounded to 2 decimals. The in-memory catalog and overhead-rate
globals of the source are passed explicitly. -/
def calculate_deliverable_cashflow (catalog : String → Option ServiceRecord)
    (rates : List ℚ) (deliverables : List DeliverableData) :
    Except CashFlowError (List DeliverableResult × CashFlowSummary) :=
  match processDeliverables catalog rates 0 deliverables with
  | .error e => .error e
  | .ok rs =>
  let total_revenue := (rs.map (·.cash_in)).sum
  let total_costs := (rs.map (·.cash_out)).sum
  let total_profit := total_revenue - total_costs
  let profit_margin :=
    if total_revenue > 0 then total_profit / total_revenue * 100 else 0
  .ok (rs, { total_revenue := total_revenue
             total_costs := total_costs
             total_profit := total_profit
             profit_margin := round2 profit_margin
             is_profitable := decide (total_profit > 0) })


/-- Characterization of a successful `resolveAmount`: either a service id
was present, resolved in the catalog, and the amount is the explicit one
(when given) or the catalog price (when absent); or no service id was
present and the amount is the mandatory explicit one. -/
theorem resolveAmount_ok (catalog : String → Option ServiceRecord)
    (d : DeliverableData) (serviceInfo : Option ServiceRecord) (amount : ℚ)
    (h : resolveAmount catalog d = .ok (serviceInfo, amount)) :
    (∃ sid svc, d.service_id = some sid ∧ catalog sid = some svc ∧
      serviceInfo = some svc ∧
      ((d.amount = none ∧ amount = svc.price) ∨
        (∃ a, d.amount = some a ∧ amount = a))) ∨
    (d.service_id = none ∧ serviceInfo = none ∧
      ∃ a, d.amount = some a ∧ amount = a) := by
  unfold resolveAmount at h
  rcases hsid : d.service_id with _ | sid
  · rw [hsid] at h
    dsimp only at h
    rcases ham : d.amount with _ | a <;> rw [ham] at h <;> dsimp only at h
    · exact absurd h (by simp)
    · rw [Except.ok.injEq, Prod.mk.injEq] at h
      exact Or.inr ⟨rfl, h.1.symm, a, rfl, h.2.symm⟩
  · rw [hsid] at h
    dsimp only at h
    rcases hsvc : catalog sid with _ | svc <;> rw [hsvc] at h <;> dsimp only at h
    · exact absurd h (by simp)
    · rcases ham : d.amount with _ | a <;> rw [ham] at h <;> dsimp only at h <;>
        rw [Except.ok.injEq, Prod.mk.injEq] at h
      · exact Or.inl ⟨sid, svc, rfl, hsvc, h.1.symm, Or.inl ⟨rfl, h.2.symm⟩⟩
      · exact Or.inl ⟨sid, svc, rfl, hsvc, h.1.symm, Or.inr ⟨a, rfl, h.2.symm⟩⟩

/-- A successful `processDeliverable` step wraps a successful
`resolveAmount` whose amount is the emitted `cash_in`, returns the updated
running total `cum + net_flow`, and records it in the result. -/
theorem processDeliverable_ok (catalog : String → Option ServiceRecord)
    (rates : List ℚ) (cum : ℚ) (d : DeliverableData)
    (r : DeliverableResult) (c : ℚ)
    (h : processDeliverable catalog rates cum d = .ok (r, c)) :
    (∃ serviceInfo, resolveAmount catalog d = .ok (serviceInfo, r.cash_in)) ∧
    c = cum + r.net_flow ∧ r.cumulative_net_flow = c := by
  unfold processDeliverable at h
  rcases hra : resolveAmount catalog d with e | ⟨serviceInfo, amount⟩ <;>
    rw [hra] at h <;> dsimp only at h
  · exact absurd h (by simp)
  · rw [Except.ok.injEq, Prod.mk.injEq] at h
    obtain ⟨h1, h2⟩ := h
    subst h2
    subst h1
    exact ⟨⟨serviceInfo, rfl⟩, rfl, rfl⟩

/-- Threading lemma for the deliverable loop: on success, the last emitted
result's running total equals the starting total plus the sum of all
emitted net flows, in input order. -/
theorem processDeliverables_getLast_cum (catalog : String → Option ServiceRecord)
    (rates : List ℚ) (ds : List DeliverableData) :
    ∀ (cum : ℚ) (rs : List DeliverableResult),
      processDeliverables catalog rates cum ds = .ok rs →
      ∀ r, rs.getLast? = some r →
      r.cumulative_net_flow = cum + (rs.map (·.net_flow)).sum := by
  induction ds with
  | nil =>
    intro cum rs h r hr
    unfold processDeliverables at h
    rw [Except.ok.injEq] at h
    subst h
    simp at hr
  | cons d ds ih =>
    intro cum rs h r hr
    unfold processDeliverables at h
    rcases hpd : processDeliverable catalog rates cum d with e | ⟨r0, cum'⟩ <;>
      rw [hpd] at h <;> dsimp only at h
    · exact absurd h (by simp)
    · rcases hrest : processDeliverables catalog rates cum' ds with e | rs' <;>
        rw [hrest] at h <;> dsimp only at h
      · exact absurd h (by simp)
      · rw [Except.ok.injEq] at h
        subst h
        obtain ⟨_, hc, hcum⟩ := processDeliverable_ok catalog rates cum d r0 cum' hpd
        cases rs' with
        | nil =>
          simp at hr
          subst hr
          simp [hcum, hc]
        | cons r1 rs'' =>
          have hlast : (r1 :: rs'').getLast? = some r := by
            simpa [List.getLast?_cons_cons] using hr
          have ihl := ih cum' (r1 :: rs'') hrest r hlast
          rw [ihl, hc]
          simp [List.map_cons, List.sum_cons]
          ring

/-- C2: for every deliverable sequence accepted by the cash-flow engine,
the `cumulative_net_flow` of the last emitted `DeliverableResult` equals
the sum of the `net_flow` values of all emitted results in input order.
The running total starts from `0` inside every call
(`cumulative_net_flow = 0` before the loop in the source), which is why
the total here ranges over this call's results only. -/
theorem cumulative_net_flow_eq_sum (catalog : String → Option ServiceRecord)
    (rates : List ℚ) (ds : List DeliverableData)
    (rs : List DeliverableResult) (s : CashFlowSummary)
    (h : calculate_deliverable_cashflow catalog rates ds = .ok (rs, s))
    (r : DeliverableResult) (hr : rs.getLast? = some r) :
    r.cumulative_net_flow = (rs.map (·.net_flow)).sum := by
  unfold calculate_deliverable_cashflow at h
  rcases hp : processDeliverables catalog rates 0 ds with e | rs' <;>
    rw [hp] at h <;> dsimp only at h
  · exact absurd h (by simp)
  · rw [Except.ok.injEq, Prod.mk.injEq] at h
    obtain ⟨h1, _⟩ := h
    subst h1
    have hlast := processDeliverables_getLast_cum catalog rates ds 0 rs' hp r hr
    simpa using hlast

/-- Witness for C2: a concrete one-deliverable call (explicit amount 100,
no costs, empty rate table) whose last result's running total equals the
net-flow sum. -/
theorem cumulative_net_flow_eq_sum_witness :
    calculate_deliverable_cashflow (fun _ => none) []
        [⟨"A", "2025-01-01", none, some 100, 0, 0, 0⟩]
      = .ok ([⟨"A", "2025-01-01", none, 100, 0, 0, 0, 0, 0, 100, 100, true, none⟩],
          ⟨100, 0, 100, 100, true⟩) ∧
    (⟨"A", "2025-01-01", none, 100, 0, 0, 0, 0, 0, 100, 100, true,
        none⟩ : DeliverableResult).cumulative_net_flow
      = ([(⟨"A", "2025-01-01", none, 100, 0, 0, 0, 0, 0, 100, 100, true,
          none⟩ : DeliverableResult)].map (·.net_flow)).sum := by
  have hok : calculate_deliverable_cashflow (fun _ => none) []
      [⟨"A", "2025-01-01", none, some 100, 0, 0, 0⟩]
      = .ok ([⟨"A", "2025-01-01", none, 100, 0, 0, 0, 0, 0, 100, 100, true, none⟩],
          ⟨100, 0, 100, 100, true⟩) := by
    norm_num [calculate_deliverable_cashflow, processDeliverables,
      processDeliverable, resolveAmount, calculate_overhead, round2,
      roundHalfEven]
  exact ⟨hok, cumulative_net_flow_eq_sum _ _ _ _ _ hok _ rfl⟩

/-- `round2` of zero is zero. -/
theorem round2_zero : round2 0 = 0 := by
  norm_num [round2, roundHalfEven]

/-- With Pydantic-validated inputs (`amount > 0` when given) and a catalog
of positive prices, every emitted `cash_in` is positive. -/
theorem processDeliverables_cash_in_pos (catalog : String → Option ServiceRecord)
    (rates : List ℚ)
    (hcat : ∀ sid svc, catalog sid = some svc → 0 < svc.price)
    (ds : List DeliverableData) :
    ∀ (cum : ℚ) (rs : List DeliverableResult),
      (∀ d ∈ ds, ∀ a, d.amount = some a → 0 < a) →
      processDeliverables catalog rates cum ds = .ok rs →
      ∀ r ∈ rs, 0 < r.cash_in := by
  induction ds with
  | nil =>
    intro cum rs _ h r hr
    unfold processDeliverables at h
    rw [Except.ok.injEq] at h
    subst h
    simp at hr
  | cons d ds ih =>
    intro cum rs hamt h r hr
    unfold processDeliverables at h
    rcases hpd : processDeliverable catalog rates cum d with e | ⟨r0, cum'⟩ <;>
      rw [hpd] at h <;> dsimp only at h
    · exact absurd h (by simp)
    · rcases hrest : processDeliverables catalog rates cum' ds with e | rs' <;>
        rw [hrest] at h <;> dsimp only at h
      · exact absurd h (by simp)
      · rw [Except.ok.injEq] at h
        subst h
        rcases List.mem_cons.mp hr with hr0 | hrtl
        · subst hr0
          obtain ⟨⟨svcInfo, hra⟩, _, _⟩ :=
            processDeliverable_ok catalog rates cum d r cum' hpd
          rcases resolveAmount_ok catalog d svcInfo r.cash_in hra with
            ⟨sid, svc, _, hsvc, _, hop⟩ | ⟨_, _, a, ha, hval⟩
          · rcases hop with ⟨_, hval⟩ | ⟨a, ha, hval⟩
            · rw [hval]
              exact hcat sid svc hsvc
            · rw [hval]
              exact hamt d (List.mem_cons_self d ds) a ha
          · rw [hval]
            exact hamt d (List.mem_cons_self d ds) a ha
        · exact ih cum' rs'
            (fun d' hd' => hamt d' (List.mem_cons_of_mem d hd'))
            hrest r hrtl

/-- C3: for Pydantic-valid deliverable sequences (explicit amounts
positive, catalog prices positive), whenever the summary's total revenue
is 0 — in particular for the empty sequence — the profit margin is 0, and
otherwise the profit margin is `totalProfit / totalRevenue * 100` rounded
to 2 decimals. The summary computation is a total function: the division
is guarded by `total_revenue > 0`, so no division error can occur. -/
theorem profit_margin_spec (catalog : String → Option ServiceRecord)
    (rates : List ℚ) (ds : List DeliverableData)
    (rs : List DeliverableResult) (s : CashFlowSummary)
    (hcat : ∀ sid svc, catalog sid = some svc → 0 < svc.price)
    (hamt : ∀ d ∈ ds, ∀ a, d.amount = some a → 0 < a)
    (h : calculate_deliverable_cashflow catalog rates ds = .ok (rs, s)) :
    (s.total_revenue = 0 → s.profit_margin = 0) ∧
    (s.total_revenue ≠ 0 →
      s.profit_margin = round2 (s.total_profit / s.total_revenue * 100)) := by
  unfold calculate_deliverable_cashflow at h
  rcases hp : processDeliverables catalog rates 0 ds with e | rs' <;>
    rw [hp] at h <;> dsimp only at h
  · exact absurd h (by simp)
  · rw [Except.ok.injEq, Prod.mk.injEq] at h
    obtain ⟨h1, h2⟩ := h
    subst h1
    subst h2
    have hpos : ∀ r ∈ rs', 0 < r.cash_in :=
      processDeliverables_cash_in_pos catalog rates hcat ds 0 rs' hamt hp
    have hrev : 0 ≤ (rs'.map (·.cash_in)).sum := by
      apply List.sum_nonneg
      intro x hx
      obtain ⟨r, hr, hxr⟩ := List.mem_map.mp hx
      exact le_of_lt (hxr ▸ hpos r hr)
    constructor
    · intro h0
      dsimp only at h0 ⊢
      rw [if_neg (by rw [h0]; exact lt_irrefl 0), round2_zero]
    · intro h0
      dsimp only at h0 ⊢
      have hgt : 0 < (rs'.map (·.cash_in)).sum :=
        lt_of_le_of_ne hrev (Ne.symm h0)
      rw [if_pos hgt]

/-- Witness for C3: the empty deliverable sequence has total revenue 0 and
profit margin 0. -/
theorem profit_margin_spec_witness :
    calculate_deliverable_cashflow (fun _ => none) [] []
      = .ok ([], ⟨0, 0, 0, 0, false⟩) ∧
    (⟨0, 0, 0, 0, false⟩ : CashFlowSummary).total_revenue = 0 ∧
    (⟨0, 0, 0, 0, false⟩ : CashFlowSummary).profit_margin = 0 := by
  have hok : calculate_deliverable_cashflow (fun _ => none) [] []
      = .ok ([], ⟨0, 0, 0, 0, false⟩) := by
    norm_num [calculate_deliverable_cashflow, processDeliverables, round2,
      roundHalfEven]
  exact ⟨hok, rfl,
    (profit_margin_spec _ _ _ _ _ (by simp) (by simp) hok).1 rfl⟩

/-- Position-wise decomposition of a successful run: the `i`-th emitted
result comes from a single `processDeliverable` step on the `i`-th input,
at some intermediate running total. -/
theorem processDeliverables_index (catalog : String → Option ServiceRecord)
    (rates : List ℚ) (ds : List DeliverableData) :
    ∀ (cum : ℚ) (rs : List DeliverableResult),
      processDeliverables catalog rates cum ds = .ok rs →
      ∀ (i : ℕ) (d : DeliverableData) (r : DeliverableResult),
        ds[i]? = some d → rs[i]? = some r →
        ∃ c c', processDeliverable catalog rates c d = .ok (r, c') := by
  induction ds with
  | nil =>
    intro cum rs h i d r hd hr
    simp at hd
  | cons d0 ds ih =>
    intro cum rs h i d r hd hr
    unfold processDeliverables at h
    rcases hpd : processDeliverable catalog rates cum d0 with e | ⟨r0, cum'⟩ <;>
      rw [hpd] at h <;> dsimp only at h
    · exact absurd h (by simp)
    · rcases hrest : processDeliverables catalog rates cum' ds with e | rs' <;>
        rw [hrest] at h <;> dsimp only at h
      · exact absurd h (by simp)
      · rw [Except.ok.injEq] at h
        subst h
        cases i with
        | zero =>
          simp at hd hr
          subst hd
          subst hr
          exact ⟨cum, cum', hpd⟩
        | succ i =>
          simp only [List.getElem?_cons_succ] at hd hr
          exact ih cum' rs' hrest i d r hd hr

/-- C5: for every deliverable at position `i` of an accepted call that
carries a service id resolving in the catalog, an explicit amount is used
as the emitted `cash_in` (override precedence), and an absent amount falls
back to the catalog price. -/
theorem explicit_amount_overrides (catalog : String → Option ServiceRecord)
    (rates : List ℚ) (ds : List DeliverableData)
    (rs : List DeliverableResult) (s : CashFlowSummary) (i : ℕ)
    (d : DeliverableData) (r : DeliverableResult) (sid : String)
    (svc : ServiceRecord)
    (h : calculate_deliverable_cashflow catalog rates ds = .ok (rs, s))
    (hd : ds[i]? = some d) (hr : rs[i]? = some r)
    (hsid : d.service_id = some sid) (hsvc : catalog sid = some svc) :
    (∀ a, d.amount = some a → r.cash_in = a) ∧
    (d.amount = none → r.cash_in = svc.price) := by
  unfold calculate_deliverable_cashflow at h
  rcases hp : processDeliverables catalog rates 0 ds with e | rs' <;>
    rw [hp] at h <;> dsimp only at h
  · exact absurd h (by simp)
  · rw [Except.ok.injEq, Prod.mk.injEq] at h
    obtain ⟨h1, _⟩ := h
    subst h1
    obtain ⟨c, c', hstep⟩ :=
      processDeliverables_index catalog rates ds 0 rs' hp i d r hd hr
    obtain ⟨⟨svcInfo, hra⟩, _, _⟩ :=
      processDeliverable_ok catalog rates c d r c' hstep
    rcases resolveAmount_ok catalog d svcInfo r.cash_in hra with
      ⟨sid', svc', hsid', hsvc', _, hop⟩ | ⟨hnone, _, _⟩
    · rw [hsid] at hsid'
      injection hsid' with hss
      subst hss
      rw [hsvc] at hsvc'
      injection hsvc' with hvv
      subst hvv
      constructor
      · intro a ha
        rcases hop with ⟨hnone2, _⟩ | ⟨a', ha', hval⟩
        · rw [ha] at hnone2
          simp at hnone2
        · rw [ha] at ha'
          injection ha' with haa
          rw [hval, haa]
      · intro ha
        rcases hop with ⟨_, hval⟩ | ⟨a', ha', _⟩
        · exact hval
        · rw [ha] at ha'
          simp at ha'
    · rw [hsid] at hnone
      simp at hnone

/-- Witness for C5: a deliverable with `service_id = "1.2"` (catalog price
30000) and explicit amount 100 is billed at 100, not 30000. -/
theorem explicit_amount_overrides_witness :
    calculate_deliverable_cashflow SERVICES_CATALOG []
        [⟨"A", "2025-01-01", some "1.2", some 100, 0, 0, 0⟩]
      = .ok ([⟨"A", "2025-01-01", some "1.2", 100, 0, 0, 0, 0, 0, 100, 100,
            true,
            some ⟨"AI Trustworthiness & Risk Assessment", 30000, 2,
              "Service"⟩⟩],
          ⟨100, 0, 100, 100, true⟩) ∧
    (⟨"A", "2025-01-01", some "1.2", 100, 0, 0, 0, 0, 0, 100, 100, true,
        some ⟨"AI Trustworthiness & Risk Assessment", 30000, 2,
          "Service"⟩⟩ : DeliverableResult).cash_in = 100 := by
  have hok : calculate_deliverable_cashflow SERVICES_CATALOG []
      [⟨"A", "2025-01-01", some "1.2", some 100, 0, 0, 0⟩]
      = .ok ([⟨"A", "2025-01-01", some "1.2", 100, 0, 0, 0, 0, 0, 100, 100,
            true,
            some ⟨"AI Trustworthiness & Risk Assessment", 30000, 2,
              "Service"⟩⟩],
          ⟨100, 0, 100, 100, true⟩) := by
    norm_num [calculate_deliverable_cashflow, processDeliverables,
      processDeliverable, resolveAmount, calculate_overhead,
      SERVICES_CATALOG, round2, roundHalfEven]
  refine ⟨hok, ?_⟩
  exact (explicit_amount_overrides SERVICES_CATALOG [] _ _ _ 0 _ _ "1.2"
    ⟨"AI Trustworthiness & Risk Assessment",
      "Incorporates AI risk management models to ensure ethical, bias-mitigated, and secure AI deployment",
      "Service", 2, 30000⟩ hok rfl rfl rfl rfl).1 100 rfl

/-- If any input deliverable has neither a service id nor an amount, the
loop aborts with an error (all-or-nothing: no result list is produced). -/
theorem processDeliverables_error_of_missing
    (catalog : String → Option ServiceRecord) (rates : List ℚ)
    (ds : List DeliverableData) :
    ∀ cum : ℚ, (∃ d ∈ ds, d.service_id = none ∧ d.amount = none) →
      ∃ e, processDeliverables catalog rates cum ds = .error e := by
  induction ds with
  | nil =>
    intro cum h
    simp at h
  | cons d0 ds ih =>
    intro cum h
    rcases h with ⟨d, hd, hsid, ham⟩
    rcases List.mem_cons.mp hd with hd0 | hdt
    · subst hd0
      have hstep : processDeliverable catalog rates cum d
          = .error .missingAmount := by
        simp [processDeliverable, resolveAmount, hsid, ham]
      exact ⟨.missingAmount, by unfold processDeliverables; rw [hstep]⟩
    · cases hpd : processDeliverable catalog rates cum d0 with
      | error e =>
        exact ⟨e, by unfold processDeliverables; rw [hpd]⟩
      | ok rc =>
        obtain ⟨r0, cum'⟩ := rc
        obtain ⟨e, he⟩ := ih cum' ⟨d, hdt, hsid, ham⟩
        refine ⟨e, ?_⟩
        unfold processDeliverables
        rw [hpd]
        dsimp only
        rw [he]

/-- C6: a deliverable with neither `service_id` nor `amount` makes the
per-item step fail with the missing-amount error (the amount is never
silently defaulted to 0), and any sequence containing such an item makes
the whole cash-flow call return an error — no partial result list is ever
returned (the same holds for an unresolvable service id, which also
surfaces as an `Except.error`). -/
theorem missing_amount_spec (catalog : String → Option ServiceRecord)
    (rates : List ℚ) :
    (∀ (cum : ℚ) (d : DeliverableData),
      d.service_id = none → d.amount = none →
      processDeliverable catalog rates cum d
        = .error .missingAmount) ∧
    (∀ ds : List DeliverableData,
      (∃ d ∈ ds, d.service_id = none ∧ d.amount = none) →
      ∃ e, calculate_deliverable_cashflow catalog rates ds = .error e) := by
  constructor
  · intro cum d hsid ham
    simp [processDeliverable, resolveAmount, hsid, ham]
  · intro ds hex
    obtain ⟨e, he⟩ := processDeliverables_error_of_missing catalog rates ds 0 hex
    exact ⟨e, by unfold calculate_deliverable_cashflow; rw [he]⟩

/-- Witness for C6: the item-level step and the whole call both fail with
the missing-amount error on a deliverable with no service id and no
amount. -/
theorem missing_amount_spec_witness :
    processDeliverable (fun _ => none) [] 0
        ⟨"A", "2025-01-01", none, none, 0, 0, 0⟩
      = .error .missingAmount ∧
    calculate_deliverable_cashflow (fun _ => none) []
        [⟨"A", "2025-01-01", none, none, 0, 0, 0⟩]
      = .error .missingAmount := by
  refine ⟨(missing_amount_spec (fun _ => none) []).1 0 _ rfl rfl, ?_⟩
  rfl

/-- C7: the concrete scenario — deliverable `D1` with `service_id = "1.2"`
(catalog price 30000, duration 2) and costs 1000 + 200 + 50 = 1250, under
the default overhead rates (sum 108000 per month) — yields
`overhead = 1250 * 0.15 + 108000 * 2 = 216187.5 = 432375/2`,
`cash_out = 217437.5 = 434875/2`, `net_flow = -187437.5 = -374875/2` and
`is_profitable = false`, with `cash_in = 30000` taken from the catalog. -/
theorem d1_scenario_numbers :
    (calculate_deliverable_cashflow SERVICES_CATALOG DEFAULT_OVERHEAD_COSTS
        [⟨"D1", "2025-01-01", some "1.2", none, 1000, 200, 50⟩]).map
      (fun out => out.1.map fun r =>
        (r.cash_in, r.overhead, r.cash_out, r.net_flow, r.is_profitable)) =
    .ok [(30000, 432375/2, 434875/2, -(374875/2), false)] := by
  simp [calculate_deliverable_cashflow, processDeliverables, processDeliverable,
    resolveAmount, calculate_overhead, SERVICES_CATALOG, DEFAULT_OVERHEAD_COSTS,
    round2, roundHalfEven, Except.map]
  norm_num

/-- The `HTTPException` raised in `create_financial_proposal`
(`src/api/index.py` lines 778-782) when the payment-term percentages do
not sum to 100 within tolerance; it carries the offending sum, which the
source interpolates into its message. -/
inductive ProposalError where
  | paymentTermMismatch (total_percentage : ℚ)
deriving DecidableEq, Repr

/-- One payment term of `FinalProposalRequest` (`src/api/index.py` lines
78-80). -/
structure PaymentTerm where
  description : String
  percentage : ℚ
deriving DecidableEq, Repr

/-- One line item of `FinalProposalRequest` (`src/api/index.py` lines
82-86). `total_price` is supplied by the caller, not derived. -/
structure ProposalItem where
  description : String
  quantity : ℕ
  unit_price : ℚ
  total_price : ℚ
deriving DecidableEq, Repr

/-- A payment term annotated with its computed amount (`src/api/index.py`
lines 788-794). -/
structure PaymentTermWithAmount where
  description : String
  percentage : ℚ
  amount : ℚ
deriving DecidableEq, Repr

/-- The proposal record assembled by `create_financial_proposal`
(`src/api/index.py` lines 797-806). -/
structure Proposal where
  date : String
  offer_number : String
  items : List ProposalItem
  total_amount : ℚ
  payment_terms : List PaymentTermWithAmount
  currency : String
  created_at : String
deriving DecidableEq, Repr

/-- `create_financial_proposal` (`src/api/index.py` lines 772-821):
validate that the payment-term percentages sum to 100 within a tolerance
of 0.01 (the source's literal `0.01` is exactly 1/100 in ℚ), then total
the line items and annotate each term, in input order, with
`amount = total_amount * percentage / 100`. The current date, generated
quotation code and timestamp are environmental inputs of the source
(`datetime.now()`, `uuid`), passed here as parameters. -/
def create_financial_proposal (today quotation_code now : String)
    (proposal_items : List ProposalItem) (payment_terms : List PaymentTerm) :
    Except ProposalError Proposal :=
  let total_percentage := (payment_terms.map (·.percentage)).sum
  if |total_percentage - 100| > 1 / 100 then
    .error (.paymentTermMismatch total_percentage)
  else
    let total_amount := (proposal_items.map (·.total_price)).sum
    .ok { date := today
          offer_number := quotation_code
          items := proposal_items
          total_amount := total_amount
          payment_terms := payment_terms.map fun t =>
            ⟨t.description, t.percentage, total_amount * (t.percentage / 100)⟩
          currency := "SAR"
          created_at := now }

/-- C4: proposal assembly succeeds exactly when the payment-term
percentages sum to within 0.01 of 100; outside the tolerance it fails
with the payment-term-mismatch error carrying the actual sum (which the
source surfaces in the rejection message). -/
theorem payment_term_validation (today quotation_code now : String)
    (items : List ProposalItem) (terms : List PaymentTerm) :
    (|(terms.map (·.percentage)).sum - 100| ≤ 1 / 100 →
      ∃ p, create_financial_proposal today quotation_code now items terms
        = .ok p) ∧
    (|(terms.map (·.percentage)).sum - 100| > 1 / 100 →
      create_financial_proposal today quotation_code now items terms
        = .error (.paymentTermMismatch ((terms.map (·.percentage)).sum))) := by
  constructor
  · intro hle
    unfold create_financial_proposal
    rw [if_neg (not_lt.mpr hle)]
    exact ⟨_, rfl⟩
  · intro hgt
    unfold create_financial_proposal
    rw [if_pos hgt]

/-- Witness for C4: percentages [30, 30, 40] (sum 100) are accepted;
percentages [30, 30, 39] (sum 99) are rejected with the mismatch error
carrying 99. -/
theorem payment_term_validation_witness :
    (∃ p, create_financial_proposal "2025-01-01" "Q" "T" []
        [⟨"a", 30⟩, ⟨"b", 30⟩, ⟨"c", 40⟩] = .ok p) ∧
    create_financial_proposal "2025-01-01" "Q" "T" []
        [⟨"a", 30⟩, ⟨"b", 30⟩, ⟨"c", 39⟩]
      = .error (.paymentTermMismatch 99) := by
  constructor
  · exact (payment_term_validation "2025-01-01" "Q" "T" []
      [⟨"a", 30⟩, ⟨"b", 30⟩, ⟨"c", 40⟩]).1 (by norm_num)
  · have h := (payment_term_validation "2025-01-01" "Q" "T" []
      [⟨"a", 30⟩, ⟨"b", 30⟩, ⟨"c", 39⟩]).2 (by norm_num)
    norm_num at h
    exact h

/-- Distributing a total over per-term percentages: the sum of
`T * (percentage / 100)` over a term list is `T` times the percentage sum
over 100. -/
theorem sum_map_term_amount (T : ℚ) (terms : List PaymentTerm) :
    ((terms.map fun t => T * (t.percentage / 100)).sum)
      = T * ((terms.map (·.percentage)).sum) / 100 := by
  induction terms with
  | nil => simp
  | cons t ts ih =>
    simp only [List.map_cons, List.sum_cons, ih]
    ring

/-- C8: an accepted proposal's `total_amount` is the sum of the line
items' `total_price` values, each payment term is annotated in input order
with `amount = total_amount * percentage / 100`, and when the percentages
sum to exactly 100 the annotated amounts sum back to `total_amount`. -/
theorem proposal_amounts_spec (today quotation_code now : String)
    (items : List ProposalItem) (terms : List PaymentTerm) (p : Proposal)
    (h : create_financial_proposal today quotation_code now items terms
      = .ok p) :
    p.total_amount = (items.map (·.total_price)).sum ∧
    p.payment_terms = terms.map (fun t =>
      ⟨t.description, t.percentage, p.total_amount * (t.percentage / 100)⟩) ∧
    ((terms.map (·.percentage)).sum = 100 →
      (p.payment_terms.map (·.amount)).sum = p.total_amount) := by
  unfold create_financial_proposal at h
  by_cases hc : |(terms.map (·.percentage)).sum - 100| > 1 / 100
  · rw [if_pos hc] at h
    exact absurd h (by simp)
  · rw [if_neg hc] at h
    rw [Except.ok.injEq] at h
    subst h
    refine ⟨rfl, rfl, ?_⟩
    intro h100
    dsimp only
    rw [List.map_map]
    have hsum := sum_map_term_amount ((items.map (·.total_price)).sum) terms
    simp only [Function.comp_def]
    rw [hsum, h100]
    norm_num

/-- Witness for C8: two line items totaling 500000 with payment terms
Kickoff 40% and Completion 60% yield annotated amounts 200000 and 300000,
which sum back to the total. -/
theorem proposal_amounts_spec_witness :
    create_financial_proposal "2025-01-01" "Q" "T"
        [⟨"Item A", 1, 200000, 200000⟩, ⟨"Item B", 1, 300000, 300000⟩]
        [⟨"Kickoff", 40⟩, ⟨"Completion", 60⟩]
      = .ok ⟨"2025-01-01", "Q",
          [⟨"Item A", 1, 200000, 200000⟩, ⟨"Item B", 1, 300000, 300000⟩],
          500000,
          [⟨"Kickoff", 40, 200000⟩, ⟨"Completion", 60, 300000⟩],
          "SAR", "T"⟩ ∧
    ([(⟨"Kickoff", 40, 200000⟩ : PaymentTermWithAmount),
        ⟨"Completion", 60, 300000⟩].map (·.amount)).sum = (500000 : ℚ) := by
  have hok : create_financial_proposal "2025-01-01" "Q" "T"
      [⟨"Item A", 1, 200000, 200000⟩, ⟨"Item B", 1, 300000, 300000⟩]
      [⟨"Kickoff", 40⟩, ⟨"Completion", 60⟩]
      = .ok ⟨"2025-01-01", "Q",
          [⟨"Item A", 1, 200000, 200000⟩, ⟨"Item B", 1, 300000, 300000⟩],
          500000,
          [⟨"Kickoff", 40, 200000⟩, ⟨"Completion", 60, 300000⟩],
          "SAR", "T"⟩ := by
    norm_num [create_financial_proposal]
  refine ⟨hok, ?_⟩
  have hs := (proposal_amounts_spec "2025-01-01" "Q" "T"
    [⟨"Item A", 1, 200000, 200000⟩, ⟨"Item B", 1, 300000, 300000⟩]
    [⟨"Kickoff", 40⟩, ⟨"Completion", 60⟩] _ hok).2.2 (by norm_num)
  simpa using hs

/-- Outcome of the external text-generation provider call in
`generate_price_justification` (`src/api/index.py` line 517): `failure`
models a raised exception (network or API error), `success t` models a
returned response whose `text` attribute is `t` (a `None` response or
`None`/empty text both land in the source's falsy branch, modelled by
`success ""`). -/
inductive ProviderOutcome where
  | failure
  | success (text : String)
deriving DecidableEq, Repr

/-- Fallback returned when the service id is not in the catalog
(`src/api/index.py` line 486). -/
def fallback_service_not_found : String := "Service not found in catalog"

/-- Fallback returned when no API key is configured (`src/api/index.py`
line 491). -/
def fallback_api_key_missing : String :=
  "Please configure GEMINI_API_KEY in your environment variables. Contact your system administrator to set up AI price analysis."

/-- Fallback returned when the provider responds without usable text
(`src/api/index.py` line 522). -/
def fallback_empty_response : String :=
  "AI analysis indicates this pricing is competitive for the Saudi market and reflects our premium service quality and expertise."

/-- Fallback returned when the provider call raises (`src/api/index.py`
line 526). -/
def fallback_provider_exception : String :=
  "Our pricing analysis shows this service is competitively priced for the Saudi AI consulting market. The price reflects Mutawazi's expertise, proven methodologies, and comprehensive service delivery approach that ensures successful project outcomes."

/-- `generate_price_justification` (`src/api/index.py` lines 480-526):
look up the service, check the API key, call the provider, and return the
provider's text stripped of surrounding whitespace when it is non-empty —
otherwise one of four fixed fallback strings. The catalog, the optional
API key and the provider outcome are the source's environmental inputs,
passed as parameters; the whole body is wrapped in `try/except`, so the
function always returns a string and never raises. -/
def generate_price_justification (catalog : String → Option ServiceRecord)
    (gemini_api_key : Option String) (provider : ProviderOutcome)
    (service_id : String) (proposed_price : ℚ) : String :=
  match catalog service_id with
  | none => fallback_service_not_found
  | some _ =>
    match gemini_api_key with
    | none => fallback_api_key_missing
    | some _ =>
      match provider with
      | .failure => fallback_provider_exception
      | .success t => if t = "" then fallback_empty_response else t.trim

/-- Counterexample to C9 as stated: when the provider succeeds but returns
an empty text, the source's falsy check (`if response and response.text`)
discards the successful output and returns the fixed fallback string
instead of the trimmed verbatim output `"".trim = ""`. -/
theorem justification_verbatim_counterexample :
    generate_price_justification SERVICES_CATALOG (some "key")
        (.success "") "1.2" 30000 = fallback_empty_response ∧
    fallback_empty_response ≠ "".trim := by
  constructor
  · rfl
  · intro h
    have htrim : "".trim = "" := by
      rw [String.trim]
      rw [Substring.trim]
      rw [Substring.takeWhileAux.eq_def, Substring.takeRightWhileAux.eq_def]
      simp [String.toSubstring, Substring.toString, String.extract]
    rw [htrim] at h
    simp [fallback_empty_response] at h

/-- C9 (amended): the price-justification call is a total function — it
never fails the outer request. On provider success with non-empty output
it returns that output verbatim (trimmed); a successful but empty provider
output also degrades to a fixed fallback string; and on provider failure,
missing configuration, or a service id absent from the catalog it returns
one of several fixed fallback strings instead of propagating the error. -/
theorem justification_never_fails (catalog : String → Option ServiceRecord)
    (gemini_api_key : Option String) (provider : ProviderOutcome)
    (service_id : String) (proposed_price : ℚ) :
    (∀ t, provider = .success t → t ≠ "" →
      catalog service_id ≠ none → gemini_api_key ≠ none →
      generate_price_justification catalog gemini_api_key provider
        service_id proposed_price = t.trim) ∧
    (∀ t, provider = .success t → t = "" →
      catalog service_id ≠ none → gemini_api_key ≠ none →
      generate_price_justification catalog gemini_api_key provider
        service_id proposed_price = fallback_empty_response) ∧
    (provider = .failure ∨ gemini_api_key = none ∨ catalog service_id = none →
      generate_price_justification catalog gemini_api_key provider
        service_id proposed_price ∈
        [fallback_service_not_found, fallback_api_key_missing,
          fallback_empty_response, fallback_provider_exception]) := by
  refine ⟨?_, ?_, ?_⟩
  · intro t hp ht hcat hkey
    rcases hc : catalog service_id with _ | svc
    · exact absurd hc hcat
    · rcases hk : gemini_api_key with _ | k
      · exact absurd hk hkey
      · subst hp
        simp [generate_price_justification, hc, hk, ht]
  · intro t hp ht hcat hkey
    rcases hc : catalog service_id with _ | svc
    · exact absurd hc hcat
    · rcases hk : gemini_api_key with _ | k
      · exact absurd hk hkey
      · subst hp
        subst ht
        simp [generate_price_justification, hc, hk]
  · intro hcases
    rcases hc : catalog service_id with _ | svc
    · simp [generate_price_justification, hc]
    · rcases hk : gemini_api_key with _ | k
      · simp [generate_price_justification, hc, hk]
      · rcases hcases with hf | hk' | hc'
        · subst hf
          simp [generate_price_justification, hc, hk]
        · rw [hk] at hk'
          simp at hk'
        · rw [hc] at hc'
          simp at hc'

/-- Witness for C9 (amended): with service `"1.2"`, a configured key and a
successful provider output `" competitive "`, the result is the trimmed
verbatim text `"competitive"`; with a provider failure it is the fixed
exception fallback. -/
theorem justification_never_fails_witness :
    generate_price_justification SERVICES_CATALOG (some "key")
        (.success " competitive ") "1.2" 30000 = " competitive ".trim ∧
    generate_price_justification SERVICES_CATALOG (some "key")
        .failure "1.2" 30000 ∈
      [fallback_service_not_found, fallback_api_key_missing,
        fallback_empty_response, fallback_provider_exception] := by
  constructor
  · exact (justification_never_fails SERVICES_CATALOG (some "key")
      (.success " competitive ") "1.2" 30000).1 " competitive " rfl
      (by decide) (by simp [SERVICES_CATALOG]) (by simp)
  · exact (justification_never_fails SERVICES_CATALOG (some "key")
      .failure "1.2" 30000).2.2 (Or.inl rfl)

/-- The processed project metadata built by `create_project_metadata`
(`src/api/index.py` lines 626-632): the validated request fields plus the
derived duration, generated quotation code, version name and creation
date. -/
structure ProjectMetadataRecord where
  project_name_en : String
  project_name_ar : String
  client_name_en : String
  client_name_ar : String
  project_type : String
  boq_type : String
  num_deliverables : ℕ
  start_date : String
  end_date : String
  rfp_code : String
  duration_months : ℤ
  quotation_code : String
  version_name : String
  created_on : String
deriving DecidableEq, Repr

/-- One value of the `proposals_storage` dictionary. The metadata endpoint
writes `{'metadata': ..., 'created_at': ...}` (`src/api/index.py` lines
634-638) and the proposal endpoint writes `{'proposal': ..., 'created_at':
...}` (lines 808-812), so the record's two content keys are modelled as
separate `Option` fields. -/
structure StoredRecord where
  metadata : Option ProjectMetadataRecord
  proposal : Option Proposal
  created_at : String
deriving DecidableEq, Repr

/-- The in-memory `proposals_storage` dictionary, as a key-to-record map. -/
def ProposalStore : Type := String → Option StoredRecord

/-- The store write of `create_project_metadata` (`src/api/index.py` lines
634-638): under the generated quotation code, a record holding only the
`metadata` entry (and `created_at`). -/
def store_project_metadata (store : ProposalStore)
    (m : ProjectMetadataRecord) (ts : String) : ProposalStore :=
  fun code =>
    if code = m.quotation_code then some ⟨some m, none, ts⟩ else store code

/-- The store write of `create_financial_proposal` (`src/api/index.py`
lines 808-812): under the generated quotation code (the proposal's offer
number), a record holding only the `proposal` entry (and `created_at`). -/
def store_financial_proposal (store : ProposalStore) (p : Proposal)
    (ts : String) : ProposalStore :=
  fun code =>
    if code = p.offer_number then some ⟨none, some p, ts⟩ else store code

/-- The store delete of `delete_proposal` (`src/api/index.py` lines
879-886). -/
def delete_stored_proposal (store : ProposalStore) (code : String) :
    ProposalStore :=
  fun c => if c = code then none else store c

/-- Store states reachable from the empty `proposals_storage = {}` through
the operations that write or delete records in the source. -/
inductive ReachableStore : ProposalStore → Prop where
  | empty : ReachableStore (fun _ => none)
  | putMetadata {s : ProposalStore} (m : ProjectMetadataRecord) (ts : String) :
      ReachableStore s → ReachableStore (store_project_metadata s m ts)
  | putProposal {s : ProposalStore} (p : Proposal) (ts : String) :
      ReachableStore s → ReachableStore (store_financial_proposal s p ts)
  | deleteCode {s : ProposalStore} (code : String) :
      ReachableStore s → ReachableStore (delete_stored_proposal s code)

/-- The summary rendering of `get_proposal_summary` (`src/api/index.py`
lines 845-877) for one stored record: only when the record holds both a
`metadata` and a `proposal` entry is the multi-line summary produced;
otherwise the fixed marker string is returned. The body renders every
field the source interpolates (bilingual names, RFP code, offer number,
date, duration, items, total, payment terms); the source's
thousands-separator number formatting (`:,.2f`) is presentation-only and
rendered here via `toString`. -/
def format_summary (data : StoredRecord) : String :=
  match data.metadata, data.proposal with
  | some metadata, some proposal =>
    let itemLines := proposal.items.map fun item =>
      item.description ++ " | Quantity: " ++ toString item.quantity
        ++ " | Unit Price: " ++ toString item.unit_price
        ++ " SAR | Total: " ++ toString item.total_price ++ " SAR"
    let termLines := proposal.payment_terms.map fun term =>
      term.description ++ ": " ++ toString term.percentage ++ "% = "
        ++ toString term.amount ++ " SAR"
    String.intercalate "\n"
      (["=== MUTAWAZI FINANCIAL PROPOSAL ===",
        "Project: " ++ metadata.project_name_en ++ " / "
          ++ metadata.project_name_ar,
        "Client: " ++ metadata.client_name_en ++ " / "
          ++ metadata.client_name_ar,
        "RFP Code: " ++ metadata.rfp_code,
        "Offer Number: " ++ proposal.offer_number,
        "Date: " ++ proposal.date,
        "Duration: " ++ toString metadata.duration_months ++ " months",
        "PROJECT ITEMS:"] ++ itemLines
        ++ ["TOTAL PROJECT VALUE: " ++ toString proposal.total_amount
              ++ " SAR",
            "PAYMENT TERMS:"] ++ termLines)
  | _, _ => "Incomplete proposal data"

/-- Invariant of every reachable store state: no stored record holds both
a `metadata` and a `proposal` entry, because each of the two writing
operations stores a fresh two-key dictionary containing only its own
content key. -/
theorem reachable_store_disjoint {s : ProposalStore}
    (hs : ReachableStore s) :
    ∀ code r, s code = some r → r.metadata = none ∨ r.proposal = none := by
  induction hs with
  | empty =>
    intro code r hr
    simp at hr
  | putMetadata m ts _ ih =>
    intro code r hr
    unfold store_project_metadata at hr
    by_cases hc : code = m.quotation_code
    · rw [if_pos hc] at hr
      rw [Option.some.injEq] at hr
      subst hr
      exact Or.inr rfl
    · rw [if_neg hc] at hr
      exact ih code r hr
  | putProposal p ts _ ih =>
    intro code r hr
    unfold store_financial_proposal at hr
    by_cases hc : code = p.offer_number
    · rw [if_pos hc] at hr
      rw [Option.some.injEq] at hr
      subst hr
      exact Or.inl rfl
    · rw [if_neg hc] at hr
      exact ih code r hr
  | deleteCode code' _ ih =>
    intro code r hr
    unfold delete_stored_proposal at hr
    by_cases hc : code = code'
    · rw [if_pos hc] at hr
      simp at hr
    · rw [if_neg hc] at hr
      exact ih code r hr

/-- C10: metadata-creation stores records with only a `metadata` entry and
proposal-creation stores records with only a `proposal` entry, so in every
store state reachable through these operations the summary formatter —
which requires both entries in the same record — returns the fixed string
"Incomplete proposal data" for every stored quotation code. -/
theorem summary_always_incomplete (s : ProposalStore)
    (hs : ReachableStore s) (code : String) (r : StoredRecord)
    (hr : s code = some r) :
    format_summary r = "Incomplete proposal data" := by
  rcases reachable_store_disjoint hs code r hr with hm | hp
  · unfold format_summary
    rw [hm]
  · unfold format_summary
    rcases hm2 : r.metadata with _ | m
    · rfl
    · rw [hp]

/-- Witness for C10: a store holding one record written by the metadata
operation; its summary is the fixed incomplete-data marker. -/
theorem summary_always_incomplete_witness :
    format_summary
        ⟨some ⟨"P", "P-ar", "C", "C-ar", "fixed", "deliverable-based", 1,
            "2025-01-01", "2025-03-01", "RFP-1", 2, "Q1", "v1.0",
            "2025-01-01"⟩, none, "TS"⟩
      = "Incomplete proposal data" :=
  summary_always_incomplete
    (store_project_metadata (fun _ => none)
      ⟨"P", "P-ar", "C", "C-ar", "fixed", "deliverable-based", 1,
        "2025-01-01", "2025-03-01", "RFP-1", 2, "Q1", "v1.0",
        "2025-01-01"⟩ "TS")
    (ReachableStore.putMetadata _ _ ReachableStore.empty)
    "Q1" _ (by simp [store_project_metadata])
